import Mathlib

/-!
Verification of the dlink-vm host runtime (shallow embedding).

This file embeds the host-side runtime manager of the repository into Lean:
the guest-memory access primitives (`src/utils.rs`), the host-method registry
and the universal invocation protocol (`src/host_import.rs`), the
module/instance cache with hot reload (`src/wasm_manager.rs`) and the
configuration-driven authorization gate (`src/config.rs`,
`src/wasm_manager.rs`).  Machine integers are modelled as `Int`/`Nat` with the
explicit wrap-arounds of the source (i32 parameters, `as usize` casts,
`as u32` truncation); fallible operations return `Option` or `Except`;
external capabilities (filesystem, wasm compiler, instantiation, guest
exports) are parameters of the definitions, exactly as the specification
treats them as opaque collaborators.
-/

namespace DlinkWM

/-- Guest linear memory and all byte strings are lists of byte values. -/
abbrev Bytes := List Nat

/-- Interpretation of an `i32` value as Rust `as usize` on a 64-bit host:
the two's-complement bit pattern read as an unsigned 64-bit integer. -/
def usizeOfI32 (x : Int) : Nat :=
  (x % 18446744073709551616).toNat

/-- Wrapping `i32` addition, modelling release-mode `+` on `i32` in the
source (`ret_ptr + 4`, `ret_ptr + 8`). -/
def i32_add (a b : Int) : Int :=
  ((a + b + 2147483648) % 4294967296) - 2147483648

/-- Embeds `read_wasm_memory` from `src/utils.rs`: reads `len` bytes starting
at `ptr` (both `i32`, converted with `as usize`); the underlying
`Memory.read` fails exactly when the range is out of bounds. -/
def read_wasm_memory (memory : Bytes) (ptr len : Int) : Option Bytes :=
  let p := usizeOfI32 ptr
  let l := usizeOfI32 len
  if p + l ≤ memory.length then some ((memory.drop p).take l) else none

/-- Embeds `write_wasm_memory` from `src/utils.rs`: writes `data` at `ptr`
(`i32`, converted with `as usize`); fails exactly when the range is out of
bounds, otherwise returns the updated memory. -/
def write_wasm_memory (memory : Bytes) (ptr : Int) (data : Bytes) : Option Bytes :=
  let p := usizeOfI32 ptr
  if p + data.length ≤ memory.length then
    some (memory.take p ++ data ++ memory.drop (p + data.length))
  else none

/-- The four supported serialization formats (`SerializationFormat` in
`src/host_import.rs`). -/
inductive SerializationFormat where
  | Json
  | Bincode
  | Protobuf
  | FlatBuffers
deriving DecidableEq, Repr

/-- Host method handlers (`MethodHandler` in `src/host_import.rs`): they
receive the serialized parameters and the format and return
`Ok((success, response))` or an error (`none` models `Err`). -/
abbrev MethodHandler := Bytes → SerializationFormat → Option (Bool × Bytes)

/-- Lookup in an association list, modelling `HashMap::get`. -/
def alLookup {α : Type} : List (String × α) → String → Option α
  | [], _ => none
  | (k, v) :: rest, key => if k = key then some v else alLookup rest key

/-- Insertion into an association list, modelling `HashMap::insert`: the
value bound to an already-present key is replaced. -/
def alInsert {α : Type} : List (String × α) → String → α → List (String × α)
  | [], key, v => [(key, v)]
  | (k, w) :: rest, key, v =>
      if k = key then (key, v) :: rest else (k, w) :: alInsert rest key v

/-- Removal from an association list, modelling `HashMap::remove`: every
binding of the key is dropped (a `HashMap` holds at most one binding per
key, so on such lists this coincides with removing that binding). -/
def alRemove {α : Type} : List (String × α) → String → List (String × α)
  | [], _ => []
  | (k, w) :: rest, key =>
      if k = key then alRemove rest key else (k, w) :: alRemove rest key

/-- The process-wide host method registry (`HOST_METHOD_REGISTRY`), modelled
as an explicit value threaded through the operations. -/
abbrev Registry := List (String × MethodHandler)

/-- Embeds `register_host_method` from `src/host_import.rs`: the Rust body is
`registry.insert(name, handler).is_none()`, so the returned flag reports
whether the name was absent, while the insertion itself happens
unconditionally (an existing binding is replaced). -/
def register_host_method (registry : Registry) (method_name : String)
    (handler : MethodHandler) : Bool × Registry :=
  ((alLookup registry method_name).isNone, alInsert registry method_name handler)

/-- Whether a byte is a UTF-8 continuation byte (`0x80`–`0xBF`). -/
def isCont (b : Nat) : Bool := 128 ≤ b && b ≤ 191

/-- Standard UTF-8 decoding of a byte sequence into characters, modelling
`String::from_utf8` (rejecting overlong forms, surrogates and values above
`U+10FFFF`); `none` models `Err(FromUtf8Error)`. -/
def utf8DecodeList : List Nat → Option (List Char)
  | [] => some []
  | b :: rest =>
    if b ≤ 127 then
      (utf8DecodeList rest).map (fun cs => Char.ofNat b :: cs)
    else if 194 ≤ b && b ≤ 223 then
      match rest with
      | b1 :: rest2 =>
        if isCont b1 then
          (utf8DecodeList rest2).map
            (fun cs => Char.ofNat ((b - 192) * 64 + (b1 - 128)) :: cs)
        else none
      | [] => none
    else if b = 224 then
      match rest with
      | b1 :: b2 :: rest2 =>
        if (160 ≤ b1 && b1 ≤ 191) && isCont b2 then
          (utf8DecodeList rest2).map
            (fun cs => Char.ofNat ((b - 224) * 4096 + (b1 - 128) * 64 + (b2 - 128)) :: cs)
        else none
      | _ => none
    else if (225 ≤ b && b ≤ 236) || (238 ≤ b && b ≤ 239) then
      match rest with
      | b1 :: b2 :: rest2 =>
        if isCont b1 && isCont b2 then
          (utf8DecodeList rest2).map
            (fun cs => Char.ofNat ((b - 224) * 4096 + (b1 - 128) * 64 + (b2 - 128)) :: cs)
        else none
      | _ => none
    else if b = 237 then
      match rest with
      | b1 :: b2 :: rest2 =>
        if (128 ≤ b1 && b1 ≤ 159) && isCont b2 then
          (utf8DecodeList rest2).map
            (fun cs => Char.ofNat ((b - 224) * 4096 + (b1 - 128) * 64 + (b2 - 128)) :: cs)
        else none
      | _ => none
    else if b = 240 then
      match rest with
      | b1 :: b2 :: b3 :: rest2 =>
        if (144 ≤ b1 && b1 ≤ 191) && (isCont b2 && isCont b3) then
          (utf8DecodeList rest2).map
            (fun cs => Char.ofNat ((b - 240) * 262144 + (b1 - 128) * 4096 +
              (b2 - 128) * 64 + (b3 - 128)) :: cs)
        else none
      | _ => none
    else if 241 ≤ b && b ≤ 243 then
      match rest with
      | b1 :: b2 :: b3 :: rest2 =>
        if isCont b1 && (isCont b2 && isCont b3) then
          (utf8DecodeList rest2).map
            (fun cs => Char.ofNat ((b - 240) * 262144 + (b1 - 128) * 4096 +
              (b2 - 128) * 64 + (b3 - 128)) :: cs)
        else none
      | _ => none
    else if b = 244 then
      match rest with
      | b1 :: b2 :: b3 :: rest2 =>
        if (128 ≤ b1 && b1 ≤ 143) && (isCont b2 && isCont b3) then
          (utf8DecodeList rest2).map
            (fun cs => Char.ofNat ((b - 240) * 262144 + (b1 - 128) * 4096 +
              (b2 - 128) * 64 + (b3 - 128)) :: cs)
        else none
      | _ => none
    else none

/-- Decoding of method-name bytes into a string (`String::from_utf8`). -/
def utf8Decode (bs : Bytes) : Option String :=
  (utf8DecodeList bs).map String.mk

/-- Mapping from the wire discriminant to the serialization format, exactly
the `match format_type` of `universal_invoke` (any value outside `0`–`3`
is a protocol error, modelled as `none`). -/
def serialization_format_of (format_type : Int) : Option SerializationFormat :=
  if format_type = 0 then some .Json
  else if format_type = 1 then some .Bincode
  else if format_type = 2 then some .Protobuf
  else if format_type = 3 then some .FlatBuffers
  else none

/-- Little-endian 4-byte encoding of a `u32` value (`u32::to_le_bytes`
applied to `n` truncated mod `2^32`, matching `as u32`). -/
def u32le (n : Nat) : Bytes :=
  [n % 256, n / 256 % 256, n / 65536 % 256, n / 16777216 % 256]

/-- Embeds `universal_invoke` from `src/host_import.rs` lines 161–232.
The caller's exported linear memory is `memory_export` (`none` models a
missing or non-memory `"memory"` export).  The registry keys are the Rust
`String` keys; the result is the protocol return code together with the
final state of the guest memory.  The branch structure and the order of
the checks follow the source line by line. -/
def universal_invoke (registry : Registry) (memory_export : Option Bytes)
    (method_name_ptr method_name_len format_type params_ptr params_len ret_ptr : Int) :
    Int × Option Bytes :=
  match memory_export with
  | none => (1, none)
  | some memory =>
    match read_wasm_memory memory method_name_ptr method_name_len with
    | none => (1, some memory)
    | some method_name_bytes =>
      match utf8Decode method_name_bytes with
      | none => (1, some memory)
      | some method_name =>
        match serialization_format_of format_type with
        | none => (2, some memory)
        | some format =>
          match read_wasm_memory memory params_ptr params_len with
          | none => (2, some memory)
          | some params_bytes =>
            match alLookup registry method_name with
            | none => (1, some memory)
            | some handler =>
              match handler params_bytes format with
              | none => (3, some memory)
              | some (success, ret_bytes) =>
                match write_wasm_memory memory ret_ptr
                    (u32le (if success then 1 else 0)) with
                | none => (3, some memory)
                | some m1 =>
                  match write_wasm_memory m1 (i32_add ret_ptr 4)
                      (u32le ret_bytes.length) with
                  | none => (3, some m1)
                  | some m2 =>
                    match write_wasm_memory m2 (i32_add ret_ptr 8) ret_bytes with
                    | none => (3, some m2)
                    | some m3 => (0, some m3)

/-- Opaque identifier of a compiled module produced by the external compile
capability (`wasmtime::Module` values are opaque to this core). -/
abbrev ModuleId := Nat

/-- State of `WasmInstanceCache` (`src/wasm_manager.rs`): the compiled-module
cache and the instance cache, keyed by file path.  Instance handles model
the identity of the freshly allocated `Arc` wrapper: every instantiation
creates a new one, so handles are drawn from the counter `next_handle`.
The `compile_count` field is the instrumentation counter on the external
compile capability that the specification uses to observe recompilation. -/
structure CacheState where
  module_cache : List (String × ModuleId)
  instance_cache : List (String × (Nat × ModuleId))
  next_handle : Nat
  compile_count : Nat
deriving Repr, DecidableEq

/-- Embeds `WasmInstanceCache::load_and_instantiate` (lines 66–116).
External capabilities are parameters: `fs` reads the file bytes (`none`
models an io error), `compile` is `Module::new` (`none` models a compile
error), `instantiate_ok` is `Linker::instantiate` resolution.  The state
is returned alongside the result because the Rust method mutates the
shared caches in place even on paths that end in an error: in particular a
module compiled just before a failing instantiation stays cached. -/
def load_and_instantiate (fs : String → Option Bytes)
    (compile : Bytes → Option ModuleId) (instantiate_ok : ModuleId → Bool)
    (st : CacheState) (wasm_path : String) :
    CacheState × Option (Nat × ModuleId) :=
  match alLookup st.instance_cache wasm_path with
  | some hm => (st, some hm)
  | none =>
    match fs wasm_path with
    | none => (st, none)
    | some wasm_bytes =>
      match
        (match alLookup st.module_cache wasm_path with
         | some m => some (m, st)
         | none =>
           match compile wasm_bytes with
           | none => none
           | some m =>
             some (m, { st with
               module_cache := alInsert st.module_cache wasm_path m,
               compile_count := st.compile_count + 1 })) with
      | none => (st, none)
      | some (m, st1) =>
        if instantiate_ok m then
          ({ st1 with
              instance_cache :=
                alInsert st1.instance_cache wasm_path (st1.next_handle, m),
              next_handle := st1.next_handle + 1 },
            some (st1.next_handle, m))
        else (st1, none)

/-- Embeds `WasmInstanceCache::clear_cache` (lines 125–129): removes both
the compiled-module entry and the instance entry for the path. -/
def clear_cache (st : CacheState) (wasm_path : String) : CacheState :=
  { st with
    module_cache := alRemove st.module_cache wasm_path,
    instance_cache := alRemove st.instance_cache wasm_path }

/-- Embeds `WasmInstanceCache::hot_reload` (lines 150–155): clears the cache
for the path, then reloads and reinstantiates. -/
def hot_reload (fs : String → Option Bytes) (compile : Bytes → Option ModuleId)
    (instantiate_ok : ModuleId → Bool) (st : CacheState) (wasm_path : String) :
    CacheState × Option (Nat × ModuleId) :=
  load_and_instantiate fs compile instantiate_ok (clear_cache st wasm_path) wasm_path

/-- Configuration data (`DlinkWMConfig` in `src/config.rs`): the per-file
entry-function mapping. -/
structure DlinkWMConfig where
  entry_functions : List (String × List String)
deriving Repr, DecidableEq

/-- Embeds `DynamicConfig::get_entry_functions_for_file` (lines 253–263):
returns the configured list for the file, or an empty vector when the
file has no entry; it is total and never fails. -/
def get_entry_functions_for_file (cfg : DlinkWMConfig) (file_path : String) :
    List String :=
  match alLookup cfg.entry_functions file_path with
  | some functions => functions
  | none => []

/-- Shape of a guest export as observed by `call_wasm_function`:
`funcRetI32 r` is an export matching `typed::<(), i32>` whose call yields
`r` (`none` models a trap while running), `funcVoid ok` matches
`typed::<(), ()>`, `funcOther` is a function with neither signature, and
`nonFunc` is an export that is not a function. -/
inductive ExportVal where
  | funcRetI32 (result : Option Int)
  | funcVoid (ok : Bool)
  | funcOther
  | nonFunc

/-- Errors of `call_wasm_function`, one constructor per distinct `anyhow!`
message or propagated failure of the source.  `authorizationError`
carries exactly the data interpolated into the message at
`src/wasm_manager.rs` lines 318–323: the rejected function, the file path
and the permitted set. -/
inductive CallError where
  | authorizationError (func_name wasm_path : String) (allowed : List String)
  | loadError
  | exportNotFound (func_name : String)
  | notAFunction (func_name : String)
  | incompatibleSignature (func_name : String)
  | callTrap
  | memReadError
  | utf8Error
deriving Repr, DecidableEq

/-- Byte-by-byte read of a null-terminated string from guest memory starting
at `p`, as in `call_wasm_function` lines 348–362: each iteration reads one
byte (`Memory::read`, which fails out of bounds, modelled by `none`) and
stops only at a zero byte — there is no fixed upper bound, only the end
of the memory itself. -/
def read_c_string (mem : Bytes) (p : Nat) : Option Bytes :=
  if h : p < mem.length then
    if mem.get ⟨p, h⟩ = 0 then some []
    else
      match read_c_string mem (p + 1) with
      | none => none
      | some rest => some (mem.get ⟨p, h⟩ :: rest)
  else none
termination_by mem.length - p

/-- Embeds `call_wasm_function` (`src/wasm_manager.rs` lines 307–395).
Checks the authorization list, clears the cache for the path, loads and
instantiates, then dispatches on the shape of the export; `exports` and
`instance_memory` describe the loaded module's exports and linear memory
(the latter is `none` when the module has no `"memory"` export, in which
case the string read is skipped as in the source). -/
def call_wasm_function (dynamic_config : DlinkWMConfig)
    (fs : String → Option Bytes) (compile : Bytes → Option ModuleId)
    (instantiate_ok : ModuleId → Bool)
    (exports : ModuleId → String → Option ExportVal)
    (instance_memory : ModuleId → Option Bytes)
    (st : CacheState) (wasm_path func_name : String) :
    CacheState × Except CallError Unit :=
  let entry_functions := get_entry_functions_for_file dynamic_config wasm_path
  if entry_functions.contains func_name then
    match load_and_instantiate fs compile instantiate_ok
        (clear_cache st wasm_path) wasm_path with
    | (st2, none) => (st2, .error .loadError)
    | (st2, some (_h, m)) =>
      match exports m func_name with
      | none => (st2, .error (.exportNotFound func_name))
      | some .nonFunc => (st2, .error (.notAFunction func_name))
      | some .funcOther => (st2, .error (.incompatibleSignature func_name))
      | some (.funcVoid ok) =>
          if ok then (st2, .ok ()) else (st2, .error .callTrap)
      | some (.funcRetI32 result) =>
        match result with
        | none => (st2, .error .callTrap)
        | some result_ptr =>
          match instance_memory m with
          | none => (st2, .ok ())
          | some mem =>
            match read_c_string mem (usizeOfI32 result_ptr) with
            | none => (st2, .error .memReadError)
            | some buffer =>
              if buffer.isEmpty then (st2, .ok ())
              else
                match utf8Decode buffer with
                | none => (st2, .error .utf8Error)
                | some _ => (st2, .ok ())
  else
    (st, .error (.authorizationError func_name wasm_path entry_functions))

/-- Outcome of the synchronous part of `WasmHotReloader::start`
(`src/wasm_manager.rs` lines 200–206): both `RecommendedWatcher::new` and
`watcher.watch` results go through `.unwrap()`, so a setup failure panics
in the calling thread instead of being returned. -/
inductive SetupResult where
  | panic
  | ok
deriving Repr, DecidableEq

/-- Embeds the watch setup of `WasmHotReloader::start`: `watcher_new_ok`
and `watch_ok` are the success of the two external calls that the source
unwraps. -/
def hot_reloader_start_setup (watcher_new_ok watch_ok : Bool) : SetupResult :=
  if watcher_new_ok then
    if watch_ok then .ok else .panic
  else .panic

/-- Events received by the hot-reload monitoring loop: a filesystem event
(with its data-modification flag from `EventKind::Modify(ModifyKind::Data)`
and its paths) or an error delivered by the watcher channel. -/
inductive WatchEvent where
  | fsEvent (is_data_modify : Bool) (paths : List String)
  | watcherError

/-- Whether a path has the `wasm` extension; approximates
`path.extension() == Some("wasm")` by checking that the string form of the
path ends in `".wasm"`. -/
def has_wasm_ext (p : String) : Bool :=
  p.toList.reverse.take 5 == ['m', 's', 'a', 'w', '.']

/-- Embeds the monitoring loop of `WasmHotReloader::start` (lines 212–247):
returns the trace of reload attempts, each path paired with the outcome
of `hot_reload` (`reload_ok`).  A failed reload only logs and the loop
continues with the next event; a watcher error logs and breaks. -/
def hot_reload_loop (reload_ok : String → Bool) :
    List WatchEvent → List (String × Bool)
  | [] => []
  | .fsEvent is_data paths :: rest =>
      (if is_data then
        (paths.filter has_wasm_ext).map (fun p => (p, reload_ok p))
      else []) ++ hot_reload_loop reload_ok rest
  | .watcherError :: _ => []

/-- Result of an in-bounds write of `data` at offset `p`: the bytes before
`p`, then `data`, then the bytes from `p + data.length` on.  This is the
normal form of a successful `write_wasm_memory`. -/
def writeAt (mem : Bytes) (p : Nat) (data : Bytes) : Bytes :=
  mem.take p ++ data ++ mem.drop (p + data.length)

/-- Well-formedness of a cache state: every handle stored in the instance
cache was allocated below the counter.  This holds for every state
reachable from the empty cache and ties cached handles to the set of
handles ever handed out. -/
def CacheWF (st : CacheState) : Prop :=
  ∀ pr ∈ st.instance_cache, pr.2.1 < st.next_handle

/-- Handler that echoes its parameter bytes back with success, as in the
protocol round-trip of the specification. -/
def echoHandler : MethodHandler := fun params _ => some (true, params)

/-- Guest memory for the protocol round-trip: method name `"echo"` at
offset 0, payload `b"hi"` at offset 4, response area from offset 6. -/
def echoMem : Bytes := [101, 99, 104, 111, 104, 105, 0, 0, 0, 0, 0, 0, 0, 0, 0, 0]

/-- Handler in the style of the repository's `custom_greet_handler`
(`examples/wasm_call_rust.rs` lines 37–49): supports only JSON and
returns `Err` (`none`) for every other format. -/
def jsonOnlyHandler : MethodHandler := fun params fmt =>
  match fmt with
  | .Json => some (true, params)
  | _ => none

/-- Guest memory holding the method name `"greet"` at offset 0. -/
def greetMem : Bytes := [103, 114, 101, 101, 116, 0, 0, 0, 0, 0, 0, 0, 0, 0, 0, 0]

/-- Handler reporting success with an empty payload. -/
def handlerA : MethodHandler := fun _ _ => some (true, [])

/-- Handler reporting failure with an empty payload; observably different
from `handlerA`. -/
def handlerB : MethodHandler := fun _ _ => some (false, [])

/-- Registry after registering `handlerA` under `"m"` in the empty registry. -/
def c3reg1 : Registry := (register_host_method [] "m" handlerA).2

/-- Registry after then registering `handlerB` under the same name `"m"`. -/
def c3reg2 : Registry := (register_host_method c3reg1 "m" handlerB).2

/-- Concrete storage capability for cache scenarios: every path reads as an
empty byte file. -/
def demoFs : String → Option Bytes := fun _ => some []

/-- Concrete compile capability: every input compiles to module id 7. -/
def demoCompile : Bytes → Option ModuleId := fun _ => some 7

/-- Concrete compile capability observably different from `demoCompile`. -/
def demoCompile2 : Bytes → Option ModuleId := fun _ => some 8

/-- Concrete instantiation capability: instantiation always succeeds. -/
def demoInstOk : ModuleId → Bool := fun _ => true

/-- Concrete export table: every module exports `"foo"` as a void function
whose call succeeds, and nothing else. -/
def demoExports : ModuleId → String → Option ExportVal :=
  fun _ f => if f = "foo" then some (.funcVoid true) else none

/-- Concrete instance memory: no module exports a linear memory. -/
def demoIMem : ModuleId → Option Bytes := fun _ => none

/-- Configuration permitting only `"foo"` for the file `"a.mod"`. -/
def demoCfg : DlinkWMConfig := ⟨[("a.mod", ["foo"])]⟩

/-- The empty cache state. -/
def emptyCache : CacheState := ⟨[], [], 0, 0⟩

/-- A cache state as reached after one successful load of `"a.mod"`: handle
0 was handed out, the counter is at 1. -/
def demoCache1 : CacheState := ⟨[("a.mod", 7)], [("a.mod", (0, 7))], 1, 1⟩

/-- A cache state whose compiled-module cache holds `"a.mod"` while the
instance entry is absent (as after an instance invalidation that kept the
module, or a failed instantiation). -/
def demoCache2 : CacheState := ⟨[("a.mod", 7)], [], 1, 1⟩

end DlinkWM

namespace DlinkWM

/-! Supporting lemmas about the association-list model of `HashMap`. -/

theorem alLookup_alInsert_self {α : Type} (l : List (String × α)) (k : String) (v : α) :
    alLookup (alInsert l k v) k = some v := by
  induction l with
  | nil => simp [alInsert, alLookup]
  | cons hd tl ih =>
    by_cases h : hd.1 = k
    · simp [alInsert, h, alLookup]
    · simp [alInsert, h, alLookup, ih]

theorem alLookup_alRemove_self {α : Type} (l : List (String × α)) (k : String) :
    alLookup (alRemove l k) k = none := by
  induction l with
  | nil => simp [alRemove, alLookup]
  | cons hd tl ih =>
    by_cases h : hd.1 = k
    · simp [alRemove, h, ih]
    · simp [alRemove, h, alLookup, ih]

theorem mem_of_mem_alRemove {α : Type} {l : List (String × α)} {k : String}
    {x : String × α} (hx : x ∈ alRemove l k) : x ∈ l := by
  induction l with
  | nil => simp [alRemove] at hx
  | cons hd tl ih =>
    by_cases h : hd.1 = k
    · simp [alRemove, h] at hx
      exact List.mem_cons_of_mem _ (ih hx)
    · simp [alRemove, h] at hx
      rcases hx with hx | hx
      · exact hx ▸ List.mem_cons_self _ _
      · exact List.mem_cons_of_mem _ (ih hx)

/-! Supporting lemmas about pointer conversions and memory writes. -/

theorem usizeOfI32_eq_toNat {x : Int} (h0 : 0 ≤ x)
    (h1 : x < 18446744073709551616) : usizeOfI32 x = x.toNat := by
  unfold usizeOfI32
  rw [Int.emod_eq_of_lt h0 h1]

theorem i32_add_eq {a b : Int} (h0 : -2147483648 ≤ a + b)
    (h1 : a + b < 2147483648) : i32_add a b = a + b := by
  unfold i32_add
  rw [Int.emod_eq_of_lt (by omega) (by omega)]
  omega

theorem write_wasm_memory_eq_writeAt {mem data : Bytes} {ptr : Int}
    (h : usizeOfI32 ptr + data.length ≤ mem.length) :
    write_wasm_memory mem ptr data = some (writeAt mem (usizeOfI32 ptr) data) := by
  simp [write_wasm_memory, writeAt, h]

theorem writeAt_length {mem data : Bytes} {p : Nat}
    (h : p + data.length ≤ mem.length) :
    (writeAt mem p data).length = mem.length := by
  simp [writeAt]
  omega

theorem writeAt_append {mem a b : Bytes} {p : Nat}
    (h : p + a.length + b.length ≤ mem.length) :
    writeAt (writeAt mem p a) (p + a.length) b = writeAt mem p (a ++ b) := by
  have hp : p ≤ mem.length := by omega
  have htake : (mem.take p ++ a).length = p + a.length := by
    simp [List.length_take]
    omega
  unfold writeAt
  rw [show mem.take p ++ a ++ mem.drop (p + a.length)
        = (mem.take p ++ a) ++ mem.drop (p + a.length) from by simp]
  rw [List.take_left' htake]
  rw [← List.drop_drop, List.drop_left' htake, List.drop_drop]
  simp [Nat.add_assoc]

theorem u32le_length (n : Nat) : (u32le n).length = 4 := rfl

/-- Behaviour of `universal_invoke` on the full success path: all reads
succeed, the handler is found and returns a pair, and the response region
fits in memory; the three little-endian writes then land back to back at
the return offset. -/
theorem universal_invoke_writes {registry : Registry} {mem : Bytes}
    {nptr nlen fty pptr plen rptr : Int} {nameBytes : Bytes} {name : String}
    {fmt : SerializationFormat} {handler : MethodHandler} {success : Bool}
    {payload params : Bytes}
    (h1 : read_wasm_memory mem nptr nlen = some nameBytes)
    (h2 : utf8Decode nameBytes = some name)
    (h3 : serialization_format_of fty = some fmt)
    (h4 : read_wasm_memory mem pptr plen = some params)
    (h5 : alLookup registry name = some handler)
    (h6 : handler params fmt = some (success, payload))
    (hr0 : 0 ≤ rptr)
    (hfit : rptr.toNat + (8 + payload.length) ≤ mem.length)
    (hmem : mem.length < 2147483648) :
    universal_invoke registry (some mem) nptr nlen fty pptr plen rptr
      = (0, some (writeAt mem rptr.toNat
          (u32le (if success then 1 else 0) ++ u32le payload.length ++ payload))) := by
  have hrp : rptr = (rptr.toNat : Int) := (Int.toNat_of_nonneg hr0).symm
  have hplt : rptr.toNat + 8 ≤ mem.length := by omega
  have hu : usizeOfI32 rptr = rptr.toNat :=
    usizeOfI32_eq_toNat hr0 (by omega)
  have hadd4 : i32_add rptr 4 = rptr + 4 := i32_add_eq (by omega) (by omega)
  have hadd8 : i32_add rptr 8 = rptr + 8 := i32_add_eq (by omega) (by omega)
  have hu4 : usizeOfI32 (rptr + 4) = rptr.toNat + 4 := by
    rw [usizeOfI32_eq_toNat (by omega) (by omega)]
    omega
  have hu8 : usizeOfI32 (rptr + 8) = rptr.toNat + 8 := by
    rw [usizeOfI32_eq_toNat (by omega) (by omega)]
    omega
  have w1 : write_wasm_memory mem rptr (u32le (if success then 1 else 0))
      = some (writeAt mem rptr.toNat (u32le (if success then 1 else 0))) := by
    rw [write_wasm_memory_eq_writeAt (by rw [hu, u32le_length]; omega), hu]
  have len1 : (writeAt mem rptr.toNat (u32le (if success then 1 else 0))).length
      = mem.length := writeAt_length (by rw [u32le_length]; omega)
  have w2 : write_wasm_memory
        (writeAt mem rptr.toNat (u32le (if success then 1 else 0)))
        (i32_add rptr 4) (u32le payload.length)
      = some (writeAt mem rptr.toNat
          (u32le (if success then 1 else 0) ++ u32le payload.length)) := by
    rw [hadd4, write_wasm_memory_eq_writeAt
        (by rw [hu4, u32le_length, len1]; omega), hu4]
    rw [show rptr.toNat + 4
          = rptr.toNat + (u32le (if success then 1 else 0)).length from by
        rw [u32le_length]]
    exact congrArg some (writeAt_append (by rw [u32le_length, u32le_length]; omega))
  have len2 : (writeAt mem rptr.toNat
      (u32le (if success then 1 else 0) ++ u32le payload.length)).length
      = mem.length := writeAt_length (by simp [u32le_length]; omega)
  have w3 : write_wasm_memory
        (writeAt mem rptr.toNat
          (u32le (if success then 1 else 0) ++ u32le payload.length))
        (i32_add rptr 8) payload
      = some (writeAt mem rptr.toNat
          (u32le (if success then 1 else 0) ++ u32le payload.length ++ payload)) := by
    rw [hadd8, write_wasm_memory_eq_writeAt (by rw [hu8, len2]; omega), hu8]
    rw [show rptr.toNat + 8
          = rptr.toNat + (u32le (if success then 1 else 0)
              ++ u32le payload.length).length from by simp [u32le_length]]
    exact congrArg some (writeAt_append (by simp [u32le_length]; omega))
  simp only [universal_invoke, h1, h2, h3, h4, h5, h6, w1, w2, w3]

/-! Supporting lemmas about the instance cache. -/

theorem clear_cache_instance_lookup (st : CacheState) (p : String) :
    alLookup (clear_cache st p).instance_cache p = none :=
  alLookup_alRemove_self ..

theorem clear_cache_next (st : CacheState) (p : String) :
    (clear_cache st p).next_handle = st.next_handle := rfl

theorem cacheWF_clear {st : CacheState} (p : String) (h : CacheWF st) :
    CacheWF (clear_cache st p) :=
  fun pr hpr => h pr (mem_of_mem_alRemove hpr)

/-- On an instance-cache miss, a successful load hands out exactly the
current value of the handle counter: the `Arc` wrapper is freshly
allocated. -/
theorem load_fresh {fs : String → Option Bytes} {compile : Bytes → Option ModuleId}
    {instantiate_ok : ModuleId → Bool} {st st2 : CacheState} {p : String}
    {h : Nat} {m : ModuleId}
    (hmiss : alLookup st.instance_cache p = none)
    (hload : load_and_instantiate fs compile instantiate_ok st p = (st2, some (h, m))) :
    h = st.next_handle := by
  unfold load_and_instantiate at hload
  rw [hmiss] at hload
  dsimp only at hload
  cases hfs : fs p with
  | none => rw [hfs] at hload; simp at hload
  | some bytes =>
    rw [hfs] at hload
    dsimp only at hload
    cases hm : alLookup st.module_cache p with
    | some m0 =>
      rw [hm] at hload
      dsimp only at hload
      by_cases hi : instantiate_ok m0
      · simp [hi] at hload
        exact hload.2.1.symm
      · simp [hi] at hload
    | none =>
      rw [hm] at hload
      dsimp only at hload
      cases hc : compile bytes with
      | none => rw [hc] at hload; simp at hload
      | some mc =>
        rw [hc] at hload
        dsimp only at hload
        by_cases hi : instantiate_ok mc
        · simp [hi] at hload
          exact hload.2.1.symm
        · simp [hi] at hload

/-- After a successful load, the handed-out instance is in the instance
cache under its path. -/
theorem load_result_cached {fs : String → Option Bytes}
    {compile : Bytes → Option ModuleId} {instantiate_ok : ModuleId → Bool}
    {st st2 : CacheState} {p : String} {h : Nat} {m : ModuleId}
    (hload : load_and_instantiate fs compile instantiate_ok st p = (st2, some (h, m))) :
    alLookup st2.instance_cache p = some (h, m) := by
  unfold load_and_instantiate at hload
  cases hhit : alLookup st.instance_cache p with
  | some hm0 =>
    rw [hhit] at hload
    simp at hload
    rw [← hload.1, ← hload.2]
    exact hhit
  | none =>
    rw [hhit] at hload
    dsimp only at hload
    cases hfs : fs p with
    | none => rw [hfs] at hload; simp at hload
    | some bytes =>
      rw [hfs] at hload
      dsimp only at hload
      cases hm0 : alLookup st.module_cache p with
      | some mc =>
        rw [hm0] at hload
        dsimp only at hload
        by_cases hi : instantiate_ok mc
        · simp [hi] at hload
          rw [← hload.1]
          simp [hload.2.1, hload.2.2, alLookup_alInsert_self]
        · simp [hi] at hload
      | none =>
        rw [hm0] at hload
        dsimp only at hload
        cases hc : compile bytes with
        | none => rw [hc] at hload; simp at hload
        | some mc =>
          rw [hc] at hload
          dsimp only at hload
          by_cases hi : instantiate_ok mc
          · simp [hi] at hload
            rw [← hload.1]
            simp [hload.2.1, hload.2.2, alLookup_alInsert_self]
          · simp [hi] at hload

end DlinkWM

namespace DlinkWM

/-- Claim C1: when the method name reads and decodes, the discriminant is
one of 0–3, the parameters read, the handler is registered and returns a
`(success, payload)` pair, and the response fits at the caller-supplied
return offset, `universal_invoke` writes there, in order and with no
padding, 4 little-endian bytes holding 1 for handler success and 0 for
handler failure, then 4 little-endian bytes holding the payload length,
then the raw payload — and the protocol return code is 0 regardless of
the handler's success flag. -/
theorem universal_invoke_success_response (registry : Registry) (mem : Bytes)
    (nptr nlen fty pptr plen rptr : Int) (nameBytes : Bytes) (name : String)
    (fmt : SerializationFormat) (handler : MethodHandler) (success : Bool)
    (payload params : Bytes)
    (h1 : read_wasm_memory mem nptr nlen = some nameBytes)
    (h2 : utf8Decode nameBytes = some name)
    (h3 : serialization_format_of fty = some fmt)
    (h4 : read_wasm_memory mem pptr plen = some params)
    (h5 : alLookup registry name = some handler)
    (h6 : handler params fmt = some (success, payload))
    (hr0 : 0 ≤ rptr)
    (hfit : rptr.toNat + (8 + payload.length) ≤ mem.length)
    (hmem : mem.length < 2147483648) :
    universal_invoke registry (some mem) nptr nlen fty pptr plen rptr
      = (0, some (writeAt mem rptr.toNat
          (u32le (if success then 1 else 0) ++ u32le payload.length ++ payload))) :=
  universal_invoke_writes h1 h2 h3 h4 h5 h6 hr0 hfit hmem

/-- Claim C1, witness: the echo round trip of the specification — handler
`"echo"`, discriminant 0, payload `b"hi"` — returns code 0 and writes
status 1, length 2 and the payload little-endian at offset 6. -/
theorem universal_invoke_success_response_witness :
    universal_invoke [("echo", echoHandler)] (some echoMem) 0 4 0 4 2 6
      = (0, some [101, 99, 104, 111, 104, 105, 1, 0, 0, 0, 2, 0, 0, 0, 104, 105]) := by
  have h := universal_invoke_success_response [("echo", echoHandler)] echoMem
    0 4 0 4 2 6 [101, 99, 104, 111] "echo" .Json echoHandler true
    [104, 105] [104, 105]
    (by decide) (by decide) (by decide) (by decide) rfl rfl
    (by decide) (by decide) (by decide)
  rw [h]
  rfl

/-- Claim C4, counterexample: a handler in the style of the repository's
own `custom_greet_handler` fails on an unsupported format by returning
`Err`; invoked with the valid discriminant 1 (Bincode), the protocol
return code is 3 — a nonzero protocol-level code — refuting that such a
failure never surfaces as one. -/
theorem handler_format_err_counterexample :
    universal_invoke [("greet", jsonOnlyHandler)] (some greetMem) 0 5 1 0 0 8
      = (3, some greetMem) := rfl

/-- Claim C4, amended: a handler that reports an unsupported format by
returning `Ok((false, payload))` surfaces as handler-level status 0
inside the written response with protocol return code 0; but a handler
that returns `Err` — as the repository's example handler does — yields
protocol return code 3 with nothing written. -/
theorem handler_failure_surfacing (registry : Registry) (mem : Bytes)
    (nptr nlen fty pptr plen rptr : Int) (nameBytes : Bytes) (name : String)
    (fmt : SerializationFormat) (handler : MethodHandler) (params : Bytes)
    (h1 : read_wasm_memory mem nptr nlen = some nameBytes)
    (h2 : utf8Decode nameBytes = some name)
    (h3 : serialization_format_of fty = some fmt)
    (h4 : read_wasm_memory mem pptr plen = some params)
    (h5 : alLookup registry name = some handler) :
    (∀ payload : Bytes, handler params fmt = some (false, payload) →
      0 ≤ rptr → rptr.toNat + (8 + payload.length) ≤ mem.length →
      mem.length < 2147483648 →
      universal_invoke registry (some mem) nptr nlen fty pptr plen rptr
        = (0, some (writeAt mem rptr.toNat
            (u32le 0 ++ u32le payload.length ++ payload))))
    ∧ (handler params fmt = none →
      universal_invoke registry (some mem) nptr nlen fty pptr plen rptr
        = (3, some mem)) := by
  constructor
  · intro payload h6 hr0 hfit hmem
    simpa using universal_invoke_writes h1 h2 h3 h4 h5 h6 hr0 hfit hmem
  · intro h6
    simp only [universal_invoke, h1, h2, h3, h4, h5, h6]

/-- Claim C4, witness: a failing handler (`Ok((false, []))`) yields code 0
with status 0 written, while the `Err`-returning handler yields code 3. -/
theorem handler_failure_surfacing_witness :
    universal_invoke [("greet", handlerB)] (some greetMem) 0 5 0 0 0 8
      = (0, some [103, 114, 101, 101, 116, 0, 0, 0, 0, 0, 0, 0, 0, 0, 0, 0])
    ∧ universal_invoke [("greet", jsonOnlyHandler)] (some greetMem) 0 5 1 0 0 8
      = (3, some greetMem) := by
  constructor
  · have h := (handler_failure_surfacing [("greet", handlerB)] greetMem
      0 5 0 0 0 8 [103, 114, 101, 101, 116] "greet" .Json handlerB []
      (by decide) (by decide) (by decide) (by decide) rfl).1 []
      rfl (by decide) (by decide) (by decide)
    rw [h]
    rfl
  · exact (handler_failure_surfacing [("greet", jsonOnlyHandler)] greetMem
      0 5 1 0 0 8 [103, 114, 101, 101, 116] "greet" .Bincode jsonOnlyHandler []
      (by decide) (by decide) (by decide) (by decide) rfl).2 rfl

/-- Claim C5, counterexample: a call whose discriminant is 9 but whose
method name cannot be read returns code 1, not 2 — the name checks run
before the discriminant check, so the claim does not hold of every call
with an invalid discriminant. -/
theorem invalid_format_counterexample :
    universal_invoke [] (some []) 0 4 9 0 0 0 = (1, some []) := rfl

/-- Claim C5, amended: for every call whose memory export is present and
whose method name reads and decodes, a format discriminant outside
0–3 yields return code 2 and leaves guest memory untouched. -/
theorem invalid_format_returns_two (registry : Registry) (mem : Bytes)
    (nptr nlen fty pptr plen rptr : Int) (nameBytes : Bytes) (name : String)
    (h1 : read_wasm_memory mem nptr nlen = some nameBytes)
    (h2 : utf8Decode nameBytes = some name)
    (hf0 : fty ≠ 0) (hf1 : fty ≠ 1) (hf2 : fty ≠ 2) (hf3 : fty ≠ 3) :
    universal_invoke registry (some mem) nptr nlen fty pptr plen rptr
      = (2, some mem) := by
  have h3 : serialization_format_of fty = none := by
    simp [serialization_format_of, hf0, hf1, hf2, hf3]
  simp only [universal_invoke, h1, h2, h3]

/-- Claim C5, witness: discriminant 9 with a readable `"echo"` name gives
code 2 and the memory unchanged. -/
theorem invalid_format_returns_two_witness :
    universal_invoke [] (some echoMem) 0 4 9 0 0 0 = (2, some echoMem) :=
  invalid_format_returns_two [] echoMem 0 4 9 0 0 0 [101, 99, 104, 111] "echo"
    (by decide) (by decide) (by decide) (by decide) (by decide) (by decide)

/-- Claim C10: a call whose instance exposes no linear-memory export named
`"memory"`, or whose method-name bytes cannot be read, returns protocol
code 1 — the same code as method-not-found — with no byte written. -/
theorem missing_memory_or_name_returns_one (registry : Registry)
    (nptr nlen fty pptr plen rptr : Int) :
    (universal_invoke registry none nptr nlen fty pptr plen rptr = (1, none))
    ∧ ∀ mem : Bytes, read_wasm_memory mem nptr nlen = none →
        universal_invoke registry (some mem) nptr nlen fty pptr plen rptr
          = (1, some mem) := by
  constructor
  · rfl
  · intro mem h
    simp only [universal_invoke, h]

/-- Claim C10, witness: missing memory, and an out-of-bounds name read on
an empty memory, both return code 1 with memory untouched. -/
theorem missing_memory_or_name_returns_one_witness :
    (universal_invoke [] none 0 4 0 0 0 0 = (1, none))
    ∧ universal_invoke [] (some []) 0 4 0 0 0 0 = (1, some []) :=
  ⟨(missing_memory_or_name_returns_one [] 0 4 0 0 0 0).1,
    (missing_memory_or_name_returns_one [] 0 4 0 0 0 0).2 [] (by decide)⟩

end DlinkWM

namespace DlinkWM

/-- Claim C3, counterexample: registering `"m"` twice returns `true` then
`false`, but the second handler replaces the first — `HashMap::insert`
updates the value unconditionally — so the registry no longer maps `"m"`
to the originally registered handler. -/
theorem register_twice_counterexample :
    (register_host_method [] "m" handlerA).1 = true
    ∧ (register_host_method c3reg1 "m" handlerB).1 = false
    ∧ alLookup c3reg2 "m" = some handlerB
    ∧ ¬ alLookup c3reg2 "m" = some handlerA := by
  refine ⟨rfl, rfl, rfl, fun h => ?_⟩
  rw [show alLookup c3reg2 "m" = some handlerB from rfl] at h
  have h2 := congrFun (congrFun (Option.some.inj h) []) SerializationFormat.Json
  simp [handlerA, handlerB] at h2

/-- Claim C3, amended: registering an absent name returns `true` and binds
the handler; a second registration of the same name returns `false`, but
the new handler is inserted and replaces the original one, which is the
handler that responds to invocations from then on. -/
theorem register_twice_replaces (reg : Registry) (name : String)
    (h1 h2 : MethodHandler) (habs : alLookup reg name = none) :
    (register_host_method reg name h1).1 = true
    ∧ alLookup (register_host_method reg name h1).2 name = some h1
    ∧ (register_host_method (register_host_method reg name h1).2 name h2).1 = false
    ∧ alLookup (register_host_method (register_host_method reg name h1).2 name h2).2 name
        = some h2 := by
  unfold register_host_method
  refine ⟨by simp [habs], alLookup_alInsert_self .., ?_, alLookup_alInsert_self ..⟩
  simp [alLookup_alInsert_self]

/-- Claim C3, witness: double registration of `"m"` in the empty registry. -/
theorem register_twice_replaces_witness :
    (register_host_method [] "m" handlerA).1 = true
    ∧ alLookup (register_host_method [] "m" handlerA).2 "m" = some handlerA
    ∧ (register_host_method (register_host_method [] "m" handlerA).2 "m" handlerB).1 = false
    ∧ alLookup (register_host_method (register_host_method [] "m" handlerA).2 "m" handlerB).2 "m"
        = some handlerB :=
  register_twice_replaces [] "m" handlerA handlerB rfl

/-- Claim C2: `get_entry_functions_for_file` returns the configured list
for the path or the empty list when the path is absent, never an error;
and when the requested function is not a member of that list,
`call_wasm_function` fails with an authorization error carrying the
rejected function and exactly the permitted set, with the cache state
untouched — the module is neither loaded nor called. -/
theorem authorization_gate (cfg : DlinkWMConfig) (fs : String → Option Bytes)
    (compile : Bytes → Option ModuleId) (instantiate_ok : ModuleId → Bool)
    (exports : ModuleId → String → Option ExportVal)
    (instance_memory : ModuleId → Option Bytes) (st : CacheState)
    (wasm_path func_name : String) :
    ((∀ l, alLookup cfg.entry_functions wasm_path = some l →
        get_entry_functions_for_file cfg wasm_path = l)
     ∧ (alLookup cfg.entry_functions wasm_path = none →
        get_entry_functions_for_file cfg wasm_path = []))
    ∧ (func_name ∉ get_entry_functions_for_file cfg wasm_path →
       call_wasm_function cfg fs compile instantiate_ok exports instance_memory
           st wasm_path func_name
         = (st, .error (.authorizationError func_name wasm_path
             (get_entry_functions_for_file cfg wasm_path)))) := by
  refine ⟨⟨fun l hl => ?_, fun hn => ?_⟩, fun hmem => ?_⟩
  · simp [get_entry_functions_for_file, hl]
  · simp [get_entry_functions_for_file, hn]
  · have hc : (get_entry_functions_for_file cfg wasm_path).contains func_name
        = false := by
      simpa using hmem
    simp [call_wasm_function, hc]
    exact fun hmem2 => absurd hmem2 hmem

/-- Claim C2, witness: with `"a.mod"` permitting only `["foo"]`, calling
`"bar"` fails with the authorization error naming `"bar"` and listing
exactly `["foo"]`, leaving the cache untouched. -/
theorem authorization_gate_witness :
    get_entry_functions_for_file demoCfg "a.mod" = ["foo"]
    ∧ call_wasm_function demoCfg demoFs demoCompile demoInstOk demoExports
        demoIMem emptyCache "a.mod" "bar"
      = (emptyCache, .error (.authorizationError "bar" "a.mod" ["foo"])) := by
  have h := authorization_gate demoCfg demoFs demoCompile demoInstOk demoExports
    demoIMem emptyCache "a.mod" "bar"
  refine ⟨h.1.1 ["foo"] rfl, ?_⟩
  have h2 := h.2 (by decide)
  rw [h2]
  rfl

/-- Claim C6: `hot_reload` equals clearing both cache entries for the path
and then loading; and a handle returned by the reload equals the counter
value before it, hence differs from every handle handed out before the
reload — in particular from every handle retained in the pre-reload
instance cache of a well-formed state. -/
theorem hot_reload_fresh_handle (fs : String → Option Bytes)
    (compile : Bytes → Option ModuleId) (instantiate_ok : ModuleId → Bool)
    (st : CacheState) (p : String) :
    (hot_reload fs compile instantiate_ok st p
      = load_and_instantiate fs compile instantiate_ok (clear_cache st p) p)
    ∧ ∀ st2 (h : Nat) (m : ModuleId),
        hot_reload fs compile instantiate_ok st p = (st2, some (h, m)) →
        h = st.next_handle
        ∧ (∀ h0, h0 < st.next_handle → h ≠ h0)
        ∧ (CacheWF st → ∀ pr ∈ st.instance_cache, pr.2.1 ≠ h) := by
  refine ⟨rfl, fun st2 h m hload => ?_⟩
  have hload2 : load_and_instantiate fs compile instantiate_ok
      (clear_cache st p) p = (st2, some (h, m)) := hload
  have hfresh0 := load_fresh (clear_cache_instance_lookup st p) hload2
  have hfresh : h = st.next_handle := hfresh0
  refine ⟨hfresh, fun h0 hlt => by omega, fun hwf pr hpr => ?_⟩
  have := hwf pr hpr
  omega

/-- Claim C6, witness: reloading `"a.mod"` in a state that had handed out
handle 0 yields the fresh handle 1, distinct from 0. -/
theorem hot_reload_fresh_handle_witness :
    hot_reload demoFs demoCompile demoInstOk demoCache1 "a.mod"
      = (⟨[("a.mod", 7)], [("a.mod", (1, 7))], 2, 2⟩, some (1, 7))
    ∧ (1 : Nat) ≠ 0 := by
  refine ⟨rfl, ?_⟩
  exact ((hot_reload_fresh_handle demoFs demoCompile demoInstOk demoCache1
    "a.mod").2 _ 1 7 rfl).2.1 0 (by decide)

/-- Claim C7: a second load of an unchanged path returns the same cached
handle and the same state, so no recompilation happens; and when the
instance entry is absent but the compiled module is cached, the load is
independent of the compile capability, keeps the compile counter
unchanged, and instantiates exactly the cached module. -/
theorem cache_reuse_no_recompile (fs : String → Option Bytes)
    (compile : Bytes → Option ModuleId) (instantiate_ok : ModuleId → Bool)
    (st : CacheState) (p : String) :
    (∀ st2 (h : Nat) (m : ModuleId),
       load_and_instantiate fs compile instantiate_ok st p = (st2, some (h, m)) →
       load_and_instantiate fs compile instantiate_ok st2 p = (st2, some (h, m)))
    ∧ (alLookup st.instance_cache p = none →
       ∀ m0, alLookup st.module_cache p = some m0 →
         (∀ compile2 : Bytes → Option ModuleId,
            load_and_instantiate fs compile instantiate_ok st p
              = load_and_instantiate fs compile2 instantiate_ok st p)
         ∧ ∀ st2 r, load_and_instantiate fs compile instantiate_ok st p = (st2, r) →
             st2.compile_count = st.compile_count
             ∧ ∀ (h : Nat) (m : ModuleId), r = some (h, m) → m = m0) := by
  constructor
  · intro st2 h m hload
    have hc := load_result_cached hload
    unfold load_and_instantiate
    rw [hc]
  · intro hmiss m0 hmod
    constructor
    · intro compile2
      unfold load_and_instantiate
      rw [hmiss, hmod]
    · intro st2 r hload
      unfold load_and_instantiate at hload
      rw [hmiss, hmod] at hload
      dsimp only at hload
      cases hfs : fs p with
      | none =>
        rw [hfs] at hload
        simp at hload
        refine ⟨by rw [← hload.1], fun h m hr => ?_⟩
        rw [← hload.2] at hr
        simp at hr
      | some bytes =>
        rw [hfs] at hload
        dsimp only at hload
        by_cases hi : instantiate_ok m0
        · simp [hi] at hload
          refine ⟨by rw [← hload.1], fun h m hr => ?_⟩
          rw [← hload.2] at hr
          simp at hr
          exact hr.2.symm
        · simp [hi] at hload
          refine ⟨by rw [← hload.1], fun h m hr => ?_⟩
          rw [← hload.2] at hr
          simp at hr

/-- Claim C7, witness: a reload-free second load of `"a.mod"` returns the
cached handle 0 with the state unchanged; with only the module cached,
the load result does not depend on the compile capability and the
compile counter stays at 1. -/
theorem cache_reuse_no_recompile_witness :
    load_and_instantiate demoFs demoCompile demoInstOk demoCache1 "a.mod"
      = (demoCache1, some (0, 7))
    ∧ load_and_instantiate demoFs demoCompile demoInstOk demoCache2 "a.mod"
      = load_and_instantiate demoFs demoCompile2 demoInstOk demoCache2 "a.mod"
    ∧ (⟨[("a.mod", 7)], [("a.mod", (1, 7))], 2, 1⟩ : CacheState).compile_count
        = demoCache2.compile_count := by
  refine ⟨?_, ?_, ?_⟩
  · exact (cache_reuse_no_recompile demoFs demoCompile demoInstOk emptyCache
      "a.mod").1 demoCache1 0 7 rfl
  · exact ((cache_reuse_no_recompile demoFs demoCompile demoInstOk demoCache2
      "a.mod").2 rfl 7 rfl).1 demoCompile2
  · exact (((cache_reuse_no_recompile demoFs demoCompile demoInstOk demoCache2
      "a.mod").2 rfl 7 rfl).2 ⟨[("a.mod", 7)], [("a.mod", (1, 7))], 2, 1⟩
      (some (1, 7)) rfl).1

end DlinkWM

namespace DlinkWM

/-- Claim C8: on authorization success `call_wasm_function` forces a fresh
instance — both caches are cleared before loading, so the instance used
carries the pre-call counter value — then dispatches on the export: the
`() -> i32` signature is tried first and its result treated as a pointer
from which a null-terminated byte string is read byte by byte (only
bounded by the memory itself, see `read_c_string`) and decoded as UTF-8;
a void export is the fallback; a missing export, a non-function export
and an incompatible signature each fail with their own descriptive
error. -/
theorem call_dispatch (cfg : DlinkWMConfig) (fs : String → Option Bytes)
    (compile : Bytes → Option ModuleId) (instantiate_ok : ModuleId → Bool)
    (exports : ModuleId → String → Option ExportVal)
    (instance_memory : ModuleId → Option Bytes) (st : CacheState)
    (wasm_path func_name : String)
    (hauth : func_name ∈ get_entry_functions_for_file cfg wasm_path) :
    (∀ st2, load_and_instantiate fs compile instantiate_ok
        (clear_cache st wasm_path) wasm_path = (st2, none) →
      call_wasm_function cfg fs compile instantiate_ok exports instance_memory
          st wasm_path func_name = (st2, .error .loadError))
    ∧ ∀ st2 (h : Nat) (m : ModuleId),
        load_and_instantiate fs compile instantiate_ok
          (clear_cache st wasm_path) wasm_path = (st2, some (h, m)) →
        h = st.next_handle
        ∧ (exports m func_name = none →
            call_wasm_function cfg fs compile instantiate_ok exports
              instance_memory st wasm_path func_name
              = (st2, .error (.exportNotFound func_name)))
        ∧ (exports m func_name = some .nonFunc →
            call_wasm_function cfg fs compile instantiate_ok exports
              instance_memory st wasm_path func_name
              = (st2, .error (.notAFunction func_name)))
        ∧ (exports m func_name = some .funcOther →
            call_wasm_function cfg fs compile instantiate_ok exports
              instance_memory st wasm_path func_name
              = (st2, .error (.incompatibleSignature func_name)))
        ∧ (∀ ok, exports m func_name = some (.funcVoid ok) →
            call_wasm_function cfg fs compile instantiate_ok exports
              instance_memory st wasm_path func_name
              = (st2, if ok then .ok () else .error .callTrap))
        ∧ (∀ (r : Int) (mem2 buf : Bytes),
            exports m func_name = some (.funcRetI32 (some r)) →
            instance_memory m = some mem2 →
            read_c_string mem2 (usizeOfI32 r) = some buf →
            (∀ s, utf8Decode buf = some s →
              call_wasm_function cfg fs compile instantiate_ok exports
                instance_memory st wasm_path func_name = (st2, .ok ()))
            ∧ (utf8Decode buf = none →
              call_wasm_function cfg fs compile instantiate_ok exports
                instance_memory st wasm_path func_name
                = (st2, .error .utf8Error))) := by
  have hc : (get_entry_functions_for_file cfg wasm_path).contains func_name
      = true := by simpa using hauth
  constructor
  · intro st2 hload
    simp [call_wasm_function, hc, hauth, hload]
  · intro st2 h m hload
    have hfresh0 := load_fresh (clear_cache_instance_lookup st wasm_path) hload
    have hfresh : h = st.next_handle := hfresh0
    refine ⟨hfresh, ?_, ?_, ?_, ?_, ?_⟩
    · intro he
      simp [call_wasm_function, hc, hauth, hload, he]
    · intro he
      simp [call_wasm_function, hc, hauth, hload, he]
    · intro he
      simp [call_wasm_function, hc, hauth, hload, he]
    · intro ok he
      cases ok with
      | true => simp [call_wasm_function, hc, hauth, hload, he]
      | false => simp [call_wasm_function, hc, hauth, hload, he]
    · intro r mem2 buf he hm2 hrd
      constructor
      · intro s hs
        by_cases hb : buf = []
        · simp [call_wasm_function, hc, hauth, hload, he, hm2, hrd, hb]
        · simp [call_wasm_function, hc, hauth, hload, he, hm2, hrd, hb, hs]
      · intro hs
        have hb : buf ≠ [] := by
          intro hb
          rw [hb] at hs
          exact absurd hs (by decide)
        simp [call_wasm_function, hc, hauth, hload, he, hm2, hrd, hb, hs]

/-- Claim C8, witness: the authorized call of the void export `"foo"` of
`"a.mod"` succeeds on a freshly loaded instance carrying handle 0, the
counter value before the call. -/
theorem call_dispatch_witness :
    call_wasm_function demoCfg demoFs demoCompile demoInstOk demoExports
        demoIMem emptyCache "a.mod" "foo" = (demoCache1, .ok ())
    ∧ (0 : Nat) = emptyCache.next_handle := by
  have h := (call_dispatch demoCfg demoFs demoCompile demoInstOk demoExports
    demoIMem emptyCache "a.mod" "foo" (by decide)).2 demoCache1 0 7 rfl
  refine ⟨?_, h.1⟩
  have h5 := h.2.2.2.2.1 true rfl
  simpa using h5

/-- Claim C9, counterexample: both a failing watcher creation and a failing
directory watch panic inside `WasmHotReloader::start` (the source calls
`.unwrap()` on both), instead of being reported synchronously as a
recoverable result. -/
theorem start_setup_counterexample :
    hot_reloader_start_setup false true = SetupResult.panic
    ∧ hot_reloader_start_setup true false = SetupResult.panic := ⟨rfl, rfl⟩

/-- Claim C9, amended: a watch-setup failure panics in the calling thread
rather than being returned; once the loop runs, a data-modify event on a
`.wasm` path produces one reload attempt and the loop continues to the
remaining events whatever the reload outcome, while a watcher error ends
the loop. -/
theorem watcher_error_policy :
    (hot_reloader_start_setup false true = SetupResult.panic
     ∧ hot_reloader_start_setup true false = SetupResult.panic
     ∧ hot_reloader_start_setup true true = SetupResult.ok)
    ∧ (∀ (reload_ok : String → Bool) (p : String) (rest : List WatchEvent),
        has_wasm_ext p = true →
        hot_reload_loop reload_ok (.fsEvent true [p] :: rest)
          = (p, reload_ok p) :: hot_reload_loop reload_ok rest)
    ∧ (∀ (reload_ok : String → Bool) (rest : List WatchEvent),
        hot_reload_loop reload_ok (.watcherError :: rest) = []) := by
  refine ⟨⟨rfl, rfl, rfl⟩, fun reload_ok p rest hp => ?_, fun _ _ => rfl⟩
  simp [hot_reload_loop, hp]

/-- Claim C9, witness: with every reload failing, the loop still processes
both modified `.wasm` files — a failed reload never stops monitoring. -/
theorem watcher_error_policy_witness :
    hot_reload_loop (fun _ => false)
        [.fsEvent true ["a.wasm"], .fsEvent true ["b.wasm"]]
      = [("a.wasm", false), ("b.wasm", false)] := by
  have h := watcher_error_policy.2.1 (fun _ => false) "a.wasm"
    [.fsEvent true ["b.wasm"]] (by decide)
  rw [h]
  rfl

end DlinkWM
